import Mathlib

/-!
Verification of the claim reconciler of lib-bucket-provisioner
(pkg/provisioner/reconciler/claim-reconciler/reconiler.go).

The Go file is shallowly embedded below.  External calls (the object store
and the provisioner plugin) are modelled by environment records that fix the
outcome of each call a single reconciliation pass can make; each modelled
function returns, besides its Go return value, the list of external events
it performed, so ordering and once-only properties can be stated.

Go error values are modelled as a message plus the two status predicates the
source consults (errors.IsNotFound, pErr.IsBucketExists).  Wrapping an error
with fmt.Errorf and the %v verb produces a fresh error value that carries no
status information, exactly as in Go, where %v neither wraps the cause nor
lets the apimachinery status predicates see it.
-/

namespace LibBucket

/-- Go error value: a message and the two status flags the reconciler
inspects.  A nil Go error is `Option.none` at use sites. -/
structure GoError where
  msg : String
  isNotFound : Bool := false
  isBucketExists : Bool := false
deriving DecidableEq, Repr

/-- Models fmt.Errorf with plain text: a fresh error with no status flags. -/
def goErrorf (s : String) : GoError := { msg := s }

/-- Models fmt.Errorf with a %v-formatted cause: the message of the cause is
interpolated, but the result is a fresh error that does not wrap the cause,
so IsNotFound / IsBucketExists are false on it regardless of the cause. -/
def goErrorfWrap (ctx : String) (e : GoError) : GoError :=
  { msg := ctx ++ ": " ++ e.msg }

/-- A namespace+name pair (client.ObjectKey / types.NamespacedName). -/
structure ClaimRef where
  ns : String
  name : String
deriving DecidableEq, Repr

/-- Claim phase (v1alpha1.ObjectBucketClaimStatusPhase). -/
inductive ClaimPhase
  | pending
  | bound
  | released
  | failed
deriving DecidableEq, Repr

/-- ObjectBucketClaim, restricted to the fields the reconciler reads or
writes: identity, the referenced storage class, the two spec fields the
successful pass assigns (src lines 218-219) and the status phase. -/
structure Claim where
  ns : String
  name : String
  storageClassName : String := ""
  bucketName : String := ""
  objectBucketName : String := ""
  phase : ClaimPhase := .pending
deriving DecidableEq, Repr

/-- StorageClass, restricted to the fields the reconciler reads: the
provisioner name and the parameter map. -/
structure StorageClass where
  provisioner : String
  parameters : List (String × String) := []
deriving DecidableEq, Repr

/-- Go map indexing with the zero value for a missing key. -/
def paramLookup (ps : List (String × String)) (k : String) : String :=
  match ps.find? (fun p => p.1 == k) with
  | some p => p.2
  | none => ""

/-- Modelled from the spec: the constant v1alpha1.StorageClassBucket (the
parameter key naming a pre-existing bucket) is defined outside src/. -/
def StorageClassBucket : String := "bucketName"

/-- Modelled from the spec: the finalizer marker constant is defined outside
src/; only its presence matters here. -/
def finalizer : String := "objectbucket.io/finalizer"

/-- ObjectBucket (the binding record), restricted to the fields the
reconciler touches: the generated name, the copied storage class name, the
endpoint bucket name, the claim back-reference and the finalizer list. -/
structure ObjectBucket where
  name : String := ""
  storageClassName : String := ""
  bucketName : String := ""
  claimRef : Option ClaimRef := none
  finalizers : List String := []
deriving DecidableEq, Repr

/-- Credentials record (corev1.Secret); its payload is irrelevant to the
claims, only its existence and identity are tracked. -/
structure Secret where
  name : String := ""
deriving DecidableEq, Repr

/-- Connection-info record (corev1.ConfigMap); payload irrelevant here. -/
structure ConfigMap where
  name : String := ""
deriving DecidableEq, Repr

/-- Modelled from the spec: shouldProvision is defined outside src/.  Per
the spec, a claim requests provisioning exactly when it does not yet carry a
binding reference. -/
def shouldProvision (obc : Claim) : Bool :=
  obc.objectBucketName == ""

/-- Modelled from the spec: scForNewBkt is defined outside src/.  Per the
spec, a class is dynamic (greenfield) exactly when it does not name a
pre-existing bucket in its parameters. -/
def scForNewBkt (sc : StorageClass) : Bool :=
  paramLookup sc.parameters StorageClassBucket == ""

/-- Modelled from the spec: the format constant objectBucketNameFormat and
the helper that applies it are defined outside src/.  The binding name is a
deterministic function of the claim identity (spec section 3); the concrete
shape follows fmt.Sprintf(objectBucketNameFormat, ns, name). -/
def objectBucketNameFor (key : ClaimRef) : String :=
  "obc-" ++ key.ns ++ "-" ++ key.name

/-- Modelled from the spec: setObjectBucketName (called at src line 201) is
defined outside src/; it assigns the deterministic binding name. -/
def setObjectBucketName (ob : ObjectBucket) (key : ClaimRef) : ObjectBucket :=
  { ob with name := objectBucketNameFor key }

/-- Go compares the plugin result pointer against the address of a freshly
allocated composite literal (src line 197: ob == &v1alpha1.ObjectBucket{}).
A fresh allocation of a non-zero-size type has an address distinct from any
pointer the plugin could have returned, and nil is also unequal to it, so
the comparison is false for every value of ob. -/
def obPtrEqNewEmpty (_ob : Option ObjectBucket) : Bool := false

/-- External events a reconciliation pass can perform, in the order they are
recorded in a trace. -/
inductive Event
  | getClaim
  | getClass
  | getOB (name : String)
  | getSecret
  | getConfigMap
  | pluginProvision (bucket : String)
  | pluginGrant (bucket : String)
  | pluginDelete (obName : String)
  | pluginRevoke (obName : String)
  | createOB
  | createSecret
  | createConfigMap
  | updateClaimRec
  | deleteOB
  | deleteSecret
  | deleteConfigMap
deriving DecidableEq, Repr

/-- deleteResources (src lines 317-327): best-effort deletion of the three
artifacts, binding first, then credentials, then connection-info.  The
delete helpers are defined outside src/; modelled from the spec, a nil
record gives the helper nothing to delete, and helper errors are only
logged (src lines 318-326), so they do not appear in the result. -/
def deleteResources (ob : Option ObjectBucket) (cm : Option ConfigMap)
    (s : Option Secret) : List Event :=
  (if ob.isSome then [Event.deleteOB] else [])
    ++ (if s.isSome then [Event.deleteSecret] else [])
    ++ (if cm.isSome then [Event.deleteConfigMap] else [])

/-- The deferred cleanup body (src lines 149-160), reached only when the
local err is non-nil at return: call plugin Delete when the error is not an
already-exists signal, a binding object is at hand and the mode is dynamic;
then delete the artifact set.  The plugin Delete error is only logged
(src line 155). -/
def deferredCleanup (isDyn : Bool) (e : GoError) (ob : Option ObjectBucket)
    (cm : Option ConfigMap) (s : Option Secret) : List Event :=
  (match ob with
   | some o => if !e.isBucketExists && isDyn then [Event.pluginDelete o.name] else []
   | none => []) ++ deleteResources ob cm s

/-- Outcomes of the external calls a single handleProvisionClaim pass can
perform.  Helpers of this repository that live outside src/ (claimForKey,
composeBucketName, createObjectBucket, createSecret, createConfigMap,
updateClaim) are modelled from the spec as store operations returning either
a record or an error; per Go convention and the spec's retry-until-visible
contract, a failed create surfaces no record.  The plugin call is fully
external, so both components of its Go (record, error) pair are free. -/
structure ProvisionEnv where
  claimGet : Except GoError Claim
  compose : Except GoError String := .ok ""
  plugin : Option ObjectBucket × Option GoError := (none, none)
  claimRef : Except GoError ClaimRef := .error (goErrorf "unused")
  createOB : Except GoError ObjectBucket := .error (goErrorf "unused")
  createSecret : Except GoError Secret := .error (goErrorf "unused")
  createCM : Except GoError ConfigMap := .error (goErrorf "unused")
  updateClaim : Option GoError := none
deriving Repr

/-- Result of one handleProvisionClaim pass: the Go return value, the event
trace, and — as ghost observations for stating properties — the values of
the locals ob, secret, configMap and err at the moment the deferred cleanup
inspects them, plus the claim record as last written by updateClaim. -/
structure ProvisionOutcome where
  ret : Option GoError
  trace : List Event
  finalOb : Option ObjectBucket := none
  finalSecret : Option Secret := none
  finalCM : Option ConfigMap := none
  finalErr : Option GoError := none
  updatedClaim : Option Claim := none
deriving Repr

/-- The body of handleProvisionClaim after the re-fetch succeeded and the
cleanup defer was installed (src lines 149-224), before the defer runs.
Stage by stage: compose the bucket name (dynamic) or read it from the class
parameters (static, src line 162); empty name is a terminal failure whose
fresh error leaves the local err nil (src line 170); re-check
shouldProvision (src line 173); invoke the plugin (src lines 190-194); the
dead empty-result check (src line 197); name and decorate the binding
(src lines 201-204, claimRefForKey's error is assigned but overwritten
before any use); persist binding, credentials, connection-info; finally
update the claim record (src lines 206-222).  A nil plugin result with a
nil error would make Go panic at src line 201; the model threads the absent
record instead, and no claim below relies on that path. -/
def provisionBody (key : ClaimRef) (sc : StorageClass) (isDyn : Bool)
    (env : ProvisionEnv) (obc : Claim) : ProvisionOutcome :=
  let bnRes : Except GoError String :=
    if isDyn then env.compose
    else .ok (paramLookup sc.parameters StorageClassBucket)
  match bnRes with
  | .error e =>
      { ret := some (goErrorfWrap "error composing bucket name" e)
        trace := [.getClaim], finalErr := some e }
  | .ok bucketName =>
  if bucketName.length = 0 then
    { ret := some (goErrorf "bucket name missing"), trace := [.getClaim]
      finalErr := none }
  else if !shouldProvision obc then
    { ret := none, trace := [.getClaim] }
  else
  let callEv := if isDyn then Event.pluginProvision bucketName
                else Event.pluginGrant bucketName
  let verb := if isDyn then "error provisioning bucket"
              else "error granting access to bucket"
  let ob0 := env.plugin.1
  match env.plugin.2 with
  | some e =>
      { ret := some (goErrorfWrap verb e), trace := [.getClaim, callEv]
        finalOb := ob0, finalErr := some e }
  | none =>
  if obPtrEqNewEmpty ob0 then
    { ret := some (goErrorf "provisioner returned nil/empty object bucket")
      trace := [.getClaim, callEv], finalOb := ob0, finalErr := none }
  else
  let _ob1 := ob0.map (fun o =>
    { setObjectBucketName o key with
        storageClassName := obc.storageClassName
        claimRef := env.claimRef.toOption
        finalizers := [finalizer] })
  match env.createOB with
  | .error e =>
      { ret := some e, trace := [.getClaim, callEv, .createOB]
        finalOb := none, finalErr := some e }
  | .ok ob2 =>
  match env.createSecret with
  | .error e =>
      { ret := some e, trace := [.getClaim, callEv, .createOB, .createSecret]
        finalOb := some ob2, finalErr := some e }
  | .ok s =>
  match env.createCM with
  | .error e =>
      { ret := some e
        trace := [.getClaim, callEv, .createOB, .createSecret, .createConfigMap]
        finalOb := some ob2, finalSecret := some s, finalErr := some e }
  | .ok cm =>
  let obc2 := { obc with objectBucketName := ob2.name, bucketName := bucketName }
  match env.updateClaim with
  | some e =>
      { ret := some e
        trace := [.getClaim, callEv, .createOB, .createSecret, .createConfigMap,
                  .updateClaimRec]
        finalOb := some ob2, finalSecret := some s, finalCM := some cm
        finalErr := some e, updatedClaim := some obc2 }
  | none =>
      { ret := none
        trace := [.getClaim, callEv, .createOB, .createSecret, .createConfigMap,
                  .updateClaimRec]
        finalOb := some ob2, finalSecret := some s, finalCM := some cm
        finalErr := none, updatedClaim := some obc2 }

/-- Run the deferred cleanup (src lines 149-160) over the pre-defer outcome:
it fires exactly when the local err is non-nil at return, and only appends
events — the helpers' own errors are logged, never returned, so the Go
return value is untouched. -/
def runCleanup (isDyn : Bool) (o : ProvisionOutcome) : ProvisionOutcome :=
  match o.finalErr with
  | none => o
  | some e =>
      { o with trace := o.trace ++ deferredCleanup isDyn e o.finalOb o.finalCM o.finalSecret }

/-- handleProvisionClaim (src lines 130-225).  The obc parameter of the Go
function is immediately overwritten by the re-fetch (src line 139), so the
model reads the claim from the environment; a re-fetch failure returns
before the cleanup defer is installed (src lines 139-145). -/
def handleProvisionClaim (key : ClaimRef) (sc : StorageClass) (isDyn : Bool)
    (env : ProvisionEnv) : ProvisionOutcome :=
  match env.claimGet with
  | .error e =>
      if e.isNotFound then
        { ret := some (goErrorfWrap "OBC was lost before we could provision" e)
          trace := [.getClaim] }
      else
        { ret := some e, trace := [.getClaim] }
  | .ok obc => runCleanup isDyn (provisionBody key sc isDyn env obc)

/-- Outcomes of the external calls a single handleDeleteClaim pass can
perform.  The get/delete helpers for the connection-info and credentials
records, the raw store Get used inside objectBucketForClaimKey, the class
lookup and the binding delete are modelled from the spec's store contract:
a record or an error on Get, an optional error otherwise.  storageClassForOB
may return a nil class with a nil error (the source checks for it at line
264), so it keeps the full Go pair. -/
structure DeleteEnv where
  cmGet : Except GoError ConfigMap := .error (goErrorf "unused")
  cmDelete : Option GoError := none
  secretGet : Except GoError Secret := .error (goErrorf "unused")
  secretDelete : Option GoError := none
  obGet : Except GoError ObjectBucket := .error (goErrorf "unused")
  classGet : Option StorageClass × Option GoError := (none, none)
  pluginDelete : Option GoError := none
  pluginRevoke : Option GoError := none
  obDelete : Option GoError := none
deriving Repr

/-- Result of one handleDeleteClaim pass. -/
structure DeleteOutcome where
  ret : Option GoError
  trace : List Event
deriving Repr

/-- objectBucketForClaimKey (src lines 295-306): store Get under the
deterministic binding name; a Get failure of any kind — including not-found
— is wrapped with fmt.Errorf and %v, which yields a fresh error without the
not-found status; a success never yields a nil record. -/
def objectBucketForClaimKey (_key : ClaimRef) (env : DeleteEnv) :
    Option ObjectBucket × Option GoError :=
  match env.obGet with
  | .error e => (none, some (goErrorfWrap "error listing object buckets" e))
  | .ok ob => (some ob, none)

/-- Final stage of handleDeleteClaim (src lines 281-288): delete the
binding record; a not-found outcome is logged and treated as success. -/
def deleteClaimOB (env : DeleteEnv) (ob : ObjectBucket) (tr : List Event) :
    DeleteOutcome :=
  match env.obDelete with
  | some e =>
      if e.isNotFound then { ret := none, trace := tr ++ [.deleteOB] }
      else
        { ret := some (goErrorf ("error deleting objectBucket " ++ ob.name))
          trace := tr ++ [.deleteOB] }
  | none => { ret := none, trace := tr ++ [.deleteOB] }

/-- Plugin stage of handleDeleteClaim (src lines 269-279): Delete for a
dynamic class, Revoke for a static one; a plugin error is terminal and the
binding delete is not reached. -/
def deleteClaimPlugin (env : DeleteEnv) (ob : ObjectBucket)
    (sc : StorageClass) (tr : List Event) : DeleteOutcome :=
  if scForNewBkt sc then
    match env.pluginDelete with
    | some e =>
        { ret := some (goErrorfWrap "provisioner error deleting bucket" e)
          trace := tr ++ [.pluginDelete ob.name] }
    | none => deleteClaimOB env ob (tr ++ [.pluginDelete ob.name])
  else
    match env.pluginRevoke with
    | some e =>
        { ret := some (goErrorfWrap "provisioner error revoking access to bucket" e)
          trace := tr ++ [.pluginRevoke ob.name] }
    | none => deleteClaimOB env ob (tr ++ [.pluginRevoke ob.name])

/-- Binding lookup stage of handleDeleteClaim (src lines 251-267): fetch
the binding through objectBucketForClaimKey, handle the (dead, see above)
not-found and nil branches, then resolve the class. -/
def deleteClaimFromOB (key : ClaimRef) (env : DeleteEnv) (tr : List Event) :
    DeleteOutcome :=
  let tr1 := tr ++ [.getOB (objectBucketNameFor key)]
  match objectBucketForClaimKey key env with
  | (_, some e) =>
      if e.isNotFound then { ret := none, trace := tr1 }
      else
        { ret := some (goErrorfWrap "error getting objectBucket for key" e)
          trace := tr1 }
  | (none, none) => { ret := none, trace := tr1 }
  | (some ob, none) =>
      match env.classGet with
      | (some sc, none) => deleteClaimPlugin env ob sc (tr1 ++ [.getClass])
      | (_, some _) =>
          { ret := some (goErrorf ("error getting storageclass from OB " ++ ob.name))
            trace := tr1 ++ [.getClass] }
      | (none, none) =>
          { ret := some (goErrorf ("error getting storageclass from OB " ++ ob.name))
            trace := tr1 ++ [.getClass] }

/-- Credentials stage of handleDeleteClaim (src lines 241-249): a lookup
failure is logged and skipped; a delete failure is terminal. -/
def deleteClaimSecretStage (key : ClaimRef) (env : DeleteEnv)
    (tr : List Event) : DeleteOutcome :=
  match env.secretGet with
  | .ok _ =>
      match env.secretDelete with
      | some e => { ret := some e, trace := tr ++ [.getSecret, .deleteSecret] }
      | none => deleteClaimFromOB key env (tr ++ [.getSecret, .deleteSecret])
  | .error _ => deleteClaimFromOB key env (tr ++ [.getSecret])

/-- handleDeleteClaim (src lines 227-289), starting with the
connection-info stage (src lines 231-239). -/
def handleDeleteClaim (key : ClaimRef) (env : DeleteEnv) : DeleteOutcome :=
  match env.cmGet with
  | .ok _ =>
      match env.cmDelete with
      | some e => { ret := some e, trace := [.getConfigMap, .deleteConfigMap] }
      | none => deleteClaimSecretStage key env [.getConfigMap, .deleteConfigMap]
  | .error _ => deleteClaimSecretStage key env [.getConfigMap]

/-- Options (src lines 23-26); time.Duration is an int64 nanosecond count,
modelled as Int since only comparisons and assignments occur. -/
structure Options where
  retryInterval : Int := 0
  retryTimeout : Int := 0
deriving DecidableEq, Repr

/-- Modelled from the spec: the constant defaultRetryBaseInterval is defined
outside src/; the spec fixes only that a fixed minimum exists.  The value is
a representative 10s in nanoseconds. -/
def defaultRetryBaseInterval : Int := 10000000000

/-- Modelled from the spec: the constant defaultRetryTimeout is defined
outside src/; representative 360s in nanoseconds. -/
def defaultRetryTimeout : Int := 360000000000

/-- ObjectBucketClaimReconciler (src lines 29-37), restricted to the pure
configuration fields. -/
structure Reconciler where
  provisionerName : String
  retryInterval : Int
  retryTimeout : Int
deriving DecidableEq, Repr

/-- NewObjectBucketClaimReconciler (src lines 48-72): floor-clamp the two
retry options and lower-case the provisioner name. -/
def NewObjectBucketClaimReconciler (name : String) (options : Options) :
    Reconciler :=
  let ri := if options.retryInterval < defaultRetryBaseInterval then
              defaultRetryBaseInterval
            else options.retryInterval
  let rt := if options.retryTimeout < defaultRetryTimeout then
              defaultRetryTimeout
            else options.retryTimeout
  { provisionerName := name.toLower, retryInterval := ri, retryTimeout := rt }

/-- supportedProvisioner (src lines 291-293). -/
def supportedProvisioner (r : Reconciler) (provisioner : String) : Bool :=
  provisioner == r.provisionerName

/-- reconcile.Result restricted to the field the source sets. -/
structure ReconcileResult where
  requeue : Bool
deriving DecidableEq, Repr

/-- Outcomes of the external calls the Reconcile entry point makes itself:
the top-level claim fetch and the class lookup.  storageClassForClaim is
defined outside src/; modelled from the spec's store contract, a missing
class surfaces as a not-found lookup error. -/
structure ReconcileEnv where
  claimGet : Except GoError Claim := .error (goErrorf "unused")
  classGet : Except GoError StorageClass := .error (goErrorf "unused")
  provision : ProvisionEnv := { claimGet := .error (goErrorf "unused") }
  deletion : DeleteEnv := {}
deriving Repr

/-- Result of one Reconcile pass. -/
structure ReconcileOutcome where
  result : ReconcileResult
  err : Option GoError
  trace : List Event
deriving Repr

/-- Reconcile (src lines 77-126): a not-found claim triggers the deletion
flow; a found claim that should provision resolves the class (a lookup
error is returned as is, src line 113), skips silently on a foreign
provisioner name, and otherwise runs the provisioning flow; every path
returns the Result value done = {Requeue: false} (src line 83). -/
def Reconcile (r : Reconciler) (key : ClaimRef) (env : ReconcileEnv) :
    ReconcileOutcome :=
  let done : ReconcileResult := { requeue := false }
  match env.claimGet with
  | .error e =>
      if e.isNotFound then
        let d := handleDeleteClaim key env.deletion
        { result := done, err := d.ret, trace := .getClaim :: d.trace }
      else
        { result := done
          err := some (goErrorf ("error getting claim for request key " ++
                                 key.ns ++ "/" ++ key.name))
          trace := [.getClaim] }
  | .ok obc =>
      if !shouldProvision obc then
        { result := done, err := none, trace := [.getClaim] }
      else
        match env.classGet with
        | .error e => { result := done, err := some e, trace := [.getClaim, .getClass] }
        | .ok sc =>
            if !supportedProvisioner r sc.provisioner then
              { result := done, err := none, trace := [.getClaim, .getClass] }
            else
              let p := handleProvisionClaim key sc (scForNewBkt sc) env.provision
              { result := done, err := p.ret, trace := [.getClaim, .getClass] ++ p.trace }

/-- updateObjectBucketClaimPhase (src lines 308-315): sets the phase and
updates the claim record.  No call site exists in the source, which is what
decides the phase-related claim below. -/
def updateObjectBucketClaimPhase (obc : Claim) (phase : ClaimPhase)
    (storeErr : Option GoError) : Except GoError Claim :=
  match storeErr with
  | some e => .error (goErrorfWrap "error updating phase" e)
  | none => .ok { obc with phase := phase }

/-- The bucket names passed to plugin Delete in a trace, in order; a
singleton result states that Delete ran exactly once and on which record. -/
def pluginDeletes (tr : List Event) : List String :=
  tr.filterMap (fun ev => match ev with
    | .pluginDelete s => some s
    | _ => none)

/-- Concrete claim identity used for the evaluated scenarios below. -/
def keyX : ClaimRef := { ns := "testns", name := "testclaim" }

/-- Concrete pending claim with identity keyX. -/
def claimX : Claim := { ns := "testns", name := "testclaim", storageClassName := "sc1" }

/-- Concrete dynamic-mode class: no pre-existing bucket in its parameters. -/
def classDynX : StorageClass := { provisioner := "example.com/prov" }

/-- Concrete binding record carrying the deterministic name for keyX. -/
def obX : ObjectBucket := { name := objectBucketNameFor keyX, bucketName := "gen-bucket" }

/-- C8: the binding's name is a pure deterministic function of the claim
identity: the name assigned during provisioning (setObjectBucketName, src
line 201) equals the name used for the deprovisioning lookup (src lines
298-300), and two invocations on the same namespace+name compute the same
name. -/
theorem claim8_binding_name_deterministic (ob : ObjectBucket)
    (key k1 k2 : ClaimRef) (hns : k1.ns = k2.ns) (hname : k1.name = k2.name) :
    (setObjectBucketName ob key).name = objectBucketNameFor key
    ∧ objectBucketNameFor k1 = objectBucketNameFor k2 := by
  refine ⟨rfl, ?_⟩
  simp [objectBucketNameFor, hns, hname]

/-- Witness for C8 at the concrete identity keyX taken twice. -/
theorem claim8_witness :
    (setObjectBucketName obX keyX).name = objectBucketNameFor keyX
    ∧ objectBucketNameFor keyX = objectBucketNameFor { ns := "testns", name := "testclaim" } :=
  claim8_binding_name_deterministic obX keyX keyX
    { ns := "testns", name := "testclaim" } rfl rfl

/-- C9: the constructor floor-clamps both retry options: a value below the
default minimum is replaced by it, a value at or above it is kept (src
lines 52-58). -/
theorem claim9_retry_options_floor_clamped (name : String) (options : Options) :
    (options.retryInterval < defaultRetryBaseInterval →
      (NewObjectBucketClaimReconciler name options).retryInterval = defaultRetryBaseInterval)
    ∧ (defaultRetryBaseInterval ≤ options.retryInterval →
      (NewObjectBucketClaimReconciler name options).retryInterval = options.retryInterval)
    ∧ (options.retryTimeout < defaultRetryTimeout →
      (NewObjectBucketClaimReconciler name options).retryTimeout = defaultRetryTimeout)
    ∧ (defaultRetryTimeout ≤ options.retryTimeout →
      (NewObjectBucketClaimReconciler name options).retryTimeout = options.retryTimeout) := by
  refine ⟨?_, ?_, ?_, ?_⟩ <;> intro h <;>
    simp only [NewObjectBucketClaimReconciler] <;> split <;> first | rfl | omega

/-- Witness for C9: an interval below the minimum is clamped up, a timeout
above the minimum is kept. -/
theorem claim9_witness :
    ((5 : Int) < defaultRetryBaseInterval
      ∧ (NewObjectBucketClaimReconciler "A" { retryInterval := 5 }).retryInterval
          = defaultRetryBaseInterval)
    ∧ (defaultRetryTimeout ≤ (400000000000 : Int)
      ∧ (NewObjectBucketClaimReconciler "A" { retryTimeout := 400000000000 }).retryTimeout
          = 400000000000) :=
  ⟨⟨by decide, (claim9_retry_options_floor_clamped "A" { retryInterval := 5 }).1 (by decide)⟩,
   ⟨by decide, (claim9_retry_options_floor_clamped "A" { retryTimeout := 400000000000 }).2.2.2 (by decide)⟩⟩

/-- C10: every Reconcile path returns the single Result value constructed
with Requeue set to false (src line 83); retries are driven only by the
returned error. -/
theorem claim10_never_requeue (r : Reconciler) (key : ClaimRef)
    (env : ReconcileEnv) : (Reconcile r key env).result.requeue = false := by
  rcases env with ⟨cg, clg, pe, de⟩
  cases cg with
  | error e => by_cases h : e.isNotFound <;> simp [Reconcile, h]
  | ok obc =>
    by_cases hsp : shouldProvision obc
    · cases clg with
      | error e => simp [Reconcile, hsp]
      | ok sc =>
        by_cases hs : supportedProvisioner r sc.provisioner <;>
          simp [Reconcile, hsp, hs]
    · simp [Reconcile, hsp]

/-- Provisioning environment in which the plugin succeeds but hands back a
pointer to a zero-value ObjectBucket, and every later step would succeed. -/
def envC3 : ProvisionEnv :=
  { claimGet := .ok claimX
    compose := .ok "gen-bucket"
    plugin := (some {}, none)
    claimRef := .ok keyX
    createOB := .ok obX
    createSecret := .ok { name := "secretX" }
    createCM := .ok { name := "cmX" }
    updateClaim := none }

/-- C3: the source intends a plugin success with an empty/placeholder
result to fail the pass as a contract violation (the error string at src
line 198), but the guard at src line 197 compares the result pointer with
the address of a freshly allocated literal, which is false for every
result.  Evaluated at a pass whose plugin returns a zero-value record: the
pass succeeds and persists all artifacts instead of failing. -/
theorem claim3_empty_result_not_rejected :
    envC3.plugin = (some {}, none)
    ∧ obPtrEqNewEmpty (some {}) = false
    ∧ (handleProvisionClaim keyX classDynX true envC3).ret = none
    ∧ Event.createOB ∈ (handleProvisionClaim keyX classDynX true envC3).trace
    ∧ Event.createSecret ∈ (handleProvisionClaim keyX classDynX true envC3).trace
    ∧ Event.createConfigMap ∈ (handleProvisionClaim keyX classDynX true envC3).trace := by
  decide

/-- Deprovisioning environment in which the store reports the binding as
not found (the claim identity has already been fully cleaned up). -/
def envC4 : DeleteEnv :=
  { cmGet := .error (goErrorf "configmaps cmX not found")
    secretGet := .error (goErrorf "secrets secretX not found")
    obGet := .error { msg := "objectbuckets obc-testns-testclaim not found"
                      isNotFound := true } }

/-- C4: the source intends a not-found binding lookup to be treated as
already-deprovisioned success (src lines 253-255, and the nil check at src
lines 258-260), but objectBucketForClaimKey wraps the store error with
fmt.Errorf and the %v verb (src line 303), so errors.IsNotFound is false on
the wrapped error and the pass fails instead of succeeding.  Evaluated at a
pass whose binding Get returns not-found: the returned error is the doubly
wrapped lookup error, not success. -/
theorem claim4_notfound_not_treated_as_success :
    envC4.obGet = .error { msg := "objectbuckets obc-testns-testclaim not found"
                           isNotFound := true }
    ∧ (handleDeleteClaim keyX envC4).ret =
        some (goErrorf ("error getting objectBucket for key: " ++
          "error listing object buckets: objectbuckets obc-testns-testclaim not found")) := by
  exact ⟨rfl, by decide⟩

/-- Concrete reconciler instance: the registered provisioner name is held
lower-cased, as the constructor stores it. -/
def rX : Reconciler :=
  { provisionerName := "example.com/prov"
    retryInterval := defaultRetryBaseInterval
    retryTimeout := defaultRetryTimeout }

/-- Entry-point environment in which the claim exists and requests
provisioning but the referenced class is missing from the store. -/
def envC5 : ReconcileEnv :=
  { claimGet := .ok claimX
    classGet := .error { msg := "storageclass sc1 not found", isNotFound := true } }

/-- Counterexample to C5: with the claim present and requesting
provisioning, a missing resource class does not lead to skip-with-no-error:
Reconcile returns the class lookup error (src lines 111-114). -/
theorem claim5_missing_class_returns_error :
    shouldProvision claimX = true
    ∧ envC5.classGet = .error { msg := "storageclass sc1 not found", isNotFound := true }
    ∧ (Reconcile rX keyX envC5).err =
        some { msg := "storageclass sc1 not found", isNotFound := true } := by
  exact ⟨by decide, rfl, by decide⟩

/-- Provisioning environment for a dynamic pass in which the binding and
the credentials record are persisted and then the connection-info create
fails, triggering the cleanup protocol. -/
def envC6 : ProvisionEnv :=
  { claimGet := .ok claimX
    compose := .ok "gen-bucket"
    plugin := (some { bucketName := "gen-bucket" }, none)
    claimRef := .ok keyX
    createOB := .ok obX
    createSecret := .ok { name := "secretX" }
    createCM := .error (goErrorf "configmap create failed")
    updateClaim := none }

/-- Counterexample to C6: in the cleanup after a mid-provision failure with
binding and credentials already persisted, the binding is deleted strictly
before the credentials record (src lines 317-327 delete in creation order),
refuting both the reverse-creation-order claim and in particular that
credentials are deleted no later than the binding. -/
theorem claim6_binding_deleted_before_credentials :
    Event.deleteOB ∈ (handleProvisionClaim keyX classDynX true envC6).trace
    ∧ Event.deleteSecret ∈ (handleProvisionClaim keyX classDynX true envC6).trace
    ∧ (handleProvisionClaim keyX classDynX true envC6).trace.indexOf Event.deleteOB
        < (handleProvisionClaim keyX classDynX true envC6).trace.indexOf Event.deleteSecret
    ∧ ¬ ((handleProvisionClaim keyX classDynX true envC6).trace.indexOf Event.deleteSecret
        < (handleProvisionClaim keyX classDynX true envC6).trace.indexOf Event.deleteOB) := by
  decide

/-- Provisioning environment for a fully successful dynamic pass starting
from a Pending claim. -/
def envC7 : ProvisionEnv :=
  { claimGet := .ok claimX
    compose := .ok "gen-bucket"
    plugin := (some { bucketName := "gen-bucket" }, none)
    claimRef := .ok keyX
    createOB := .ok obX
    createSecret := .ok { name := "secretX" }
    createCM := .ok { name := "cmX" }
    updateClaim := none }

/-- Counterexample to C7: a fully successful dynamic pass creates the
binding, credentials and connection-info records, but the claim's phase is
never set to Bound — the phase writer (src lines 308-315) has no call site,
and the final claim update (src lines 218-220) writes only the binding and
bucket names, leaving the phase at its initial Pending value. -/
theorem claim7_phase_not_set_to_bound :
    (handleProvisionClaim keyX classDynX true envC7).ret = none
    ∧ Event.createOB ∈ (handleProvisionClaim keyX classDynX true envC7).trace
    ∧ Event.createSecret ∈ (handleProvisionClaim keyX classDynX true envC7).trace
    ∧ Event.createConfigMap ∈ (handleProvisionClaim keyX classDynX true envC7).trace
    ∧ ((handleProvisionClaim keyX classDynX true envC7).updatedClaim.map Claim.phase)
        = some ClaimPhase.pending
    ∧ ((handleProvisionClaim keyX classDynX true envC7).updatedClaim.map Claim.phase)
        ≠ some ClaimPhase.bound := by
  decide

/-- C5 (amended): with the claim present and requesting provisioning, a
class whose provisioner field does not match the registered name is skipped
with no error and no further action, while a missing class makes the pass
return the class lookup error (src lines 111-118). -/
theorem claim5_amended_skip_rules (r : Reconciler) (key : ClaimRef)
    (env : ReconcileEnv) (obc : Claim)
    (hget : env.claimGet = .ok obc) (hsp : shouldProvision obc = true) :
    (∀ sc, env.classGet = .ok sc → supportedProvisioner r sc.provisioner = false →
      (Reconcile r key env).err = none
      ∧ (Reconcile r key env).trace = [Event.getClaim, Event.getClass])
    ∧ (∀ e, env.classGet = .error e → (Reconcile r key env).err = some e) := by
  constructor
  · intro sc hclass hsup
    simp [Reconcile, hget, hsp, hclass, hsup]
  · intro e hclass
    simp [Reconcile, hget, hsp, hclass]

/-- Entry-point environment whose class belongs to a foreign provisioner. -/
def envC5b : ReconcileEnv :=
  { claimGet := .ok claimX, classGet := .ok { provisioner := "other/prov" } }

/-- Witness for the amended C5: a foreign-provisioner class is skipped with
no error, and a missing class surfaces its lookup error. -/
theorem claim5_witness :
    ((Reconcile rX keyX envC5b).err = none
      ∧ (Reconcile rX keyX envC5b).trace = [Event.getClaim, Event.getClass])
    ∧ (Reconcile rX keyX envC5).err =
        some { msg := "storageclass sc1 not found", isNotFound := true } :=
  ⟨(claim5_amended_skip_rules rX keyX envC5b claimX rfl (by decide)).1
      { provisioner := "other/prov" } rfl (by decide),
   (claim5_amended_skip_rules rX keyX envC5 claimX rfl (by decide)).2
      { msg := "storageclass sc1 not found", isNotFound := true } rfl⟩

/-- C6 (amended): the cleanup deletes the persisted artifacts in creation
order — the binding first, then the credentials record, then the
connection-info record — so the binding is deleted no later than either
derived record (src lines 317-327). -/
theorem claim6_amended_creation_order_deletes (ob : Option ObjectBucket)
    (cm : Option ConfigMap) (s : Option Secret) :
    (Event.deleteOB ∈ deleteResources ob cm s →
      Event.deleteSecret ∈ deleteResources ob cm s →
      (deleteResources ob cm s).indexOf Event.deleteOB
        < (deleteResources ob cm s).indexOf Event.deleteSecret)
    ∧ (Event.deleteSecret ∈ deleteResources ob cm s →
      Event.deleteConfigMap ∈ deleteResources ob cm s →
      (deleteResources ob cm s).indexOf Event.deleteSecret
        < (deleteResources ob cm s).indexOf Event.deleteConfigMap)
    ∧ (Event.deleteOB ∈ deleteResources ob cm s →
      Event.deleteConfigMap ∈ deleteResources ob cm s →
      (deleteResources ob cm s).indexOf Event.deleteOB
        < (deleteResources ob cm s).indexOf Event.deleteConfigMap) := by
  cases hob1 : ob.isSome <;> cases hcm1 : cm.isSome <;> cases hs1 : s.isSome <;>
    simp only [deleteResources, hob1, hcm1, hs1] <;> decide

/-- Witness for the amended C6 with all three artifacts present. -/
theorem claim6_witness :
    ([Event.deleteOB, Event.deleteSecret, Event.deleteConfigMap] : List Event).indexOf Event.deleteOB
      < ([Event.deleteOB, Event.deleteSecret, Event.deleteConfigMap] : List Event).indexOf Event.deleteSecret
    ∧ (deleteResources (some obX) (some { name := "cmX" }) (some { name := "secretX" })).indexOf Event.deleteSecret
      < (deleteResources (some obX) (some { name := "cmX" }) (some { name := "secretX" })).indexOf Event.deleteConfigMap :=
  ⟨by decide,
   (claim6_amended_creation_order_deletes (some obX) (some { name := "cmX" })
      (some { name := "secretX" })).2.1 (by decide) (by decide)⟩

/-- C7 (amended): a fully successful dynamic provisioning pass creates the
binding, credentials and connection-info records and writes the binding and
bucket names into the claim record, while the claim's phase is left
unchanged (it is never set to Bound anywhere in the pass). -/
theorem claim7_amended_success_without_phase
    (key : ClaimRef) (sc : StorageClass) (env : ProvisionEnv) (obc : Claim)
    (bn : String) (ob0 ob2 : ObjectBucket) (s : Secret) (cm : ConfigMap)
    (hget : env.claimGet = .ok obc)
    (hsp : shouldProvision obc = true)
    (hcomp : env.compose = .ok bn)
    (hbn : bn.length ≠ 0)
    (hplug : env.plugin = (some ob0, none))
    (hcob : env.createOB = .ok ob2)
    (hcsec : env.createSecret = .ok s)
    (hccm : env.createCM = .ok cm)
    (hupd : env.updateClaim = none) :
    (handleProvisionClaim key sc true env).ret = none
    ∧ Event.createOB ∈ (handleProvisionClaim key sc true env).trace
    ∧ Event.createSecret ∈ (handleProvisionClaim key sc true env).trace
    ∧ Event.createConfigMap ∈ (handleProvisionClaim key sc true env).trace
    ∧ Event.updateClaimRec ∈ (handleProvisionClaim key sc true env).trace
    ∧ (handleProvisionClaim key sc true env).updatedClaim =
        some { obc with objectBucketName := ob2.name, bucketName := bn }
    ∧ ((handleProvisionClaim key sc true env).updatedClaim.map Claim.phase)
        = some obc.phase := by
  have hp1 : env.plugin.1 = some ob0 := by rw [hplug]
  have hp2 : env.plugin.2 = none := by rw [hplug]
  simp [handleProvisionClaim, provisionBody, runCleanup, hget, hsp, hcomp,
    hbn, hp1, hp2, hcob, hcsec, hccm, hupd, obPtrEqNewEmpty]

/-- Witness for the amended C7 at the concrete successful pass envC7. -/
theorem claim7_witness :
    (handleProvisionClaim keyX classDynX true envC7).ret = none
    ∧ Event.createOB ∈ (handleProvisionClaim keyX classDynX true envC7).trace
    ∧ Event.createSecret ∈ (handleProvisionClaim keyX classDynX true envC7).trace
    ∧ Event.createConfigMap ∈ (handleProvisionClaim keyX classDynX true envC7).trace
    ∧ Event.updateClaimRec ∈ (handleProvisionClaim keyX classDynX true envC7).trace
    ∧ (handleProvisionClaim keyX classDynX true envC7).updatedClaim =
        some { claimX with objectBucketName := obX.name, bucketName := "gen-bucket" }
    ∧ ((handleProvisionClaim keyX classDynX true envC7).updatedClaim.map Claim.phase)
        = some claimX.phase :=
  claim7_amended_success_without_phase keyX classDynX envC7 claimX "gen-bucket"
    { bucketName := "gen-bucket" } obX { name := "secretX" } { name := "cmX" }
    rfl (by decide) rfl (by decide) rfl rfl rfl rfl rfl

/-- C1: in a dynamic provisioning pass that fails at or after the plugin
invocation with a non-already-exists error while a binding object is at
hand, the cleanup calls plugin Delete exactly once and on that binding
(pluginDeletes lists every Delete call of the trace), deletes every
artifact that was persisted (the binding always, the credentials and
connection-info records when their creates had succeeded, observed through
the finalSecret/finalCM ghost fields), and the pass returns the original
triggering error — cleanup results never replace it (src lines 149-160,
317-327).  The hidiom hypothesis is the plugin contract that a failed
Provision/Grant hands back no record. -/
theorem claim1_cleanup_after_failure
    (key : ClaimRef) (sc : StorageClass) (env : ProvisionEnv) (obc : Claim)
    (e0 : GoError) (ob : ObjectBucket)
    (hget : env.claimGet = .ok obc)
    (hidiom : ∀ e, env.plugin.2 = some e → env.plugin.1 = none)
    (hfail : (handleProvisionClaim key sc true env).finalErr = some e0)
    (hnx : e0.isBucketExists = false)
    (hob : (handleProvisionClaim key sc true env).finalOb = some ob) :
    pluginDeletes (handleProvisionClaim key sc true env).trace = [ob.name]
    ∧ Event.deleteOB ∈ (handleProvisionClaim key sc true env).trace
    ∧ ((handleProvisionClaim key sc true env).finalSecret.isSome →
        Event.deleteSecret ∈ (handleProvisionClaim key sc true env).trace)
    ∧ ((handleProvisionClaim key sc true env).finalCM.isSome →
        Event.deleteConfigMap ∈ (handleProvisionClaim key sc true env).trace)
    ∧ (handleProvisionClaim key sc true env).ret = some e0 := by
  obtain ⟨cg, comp, plug, cref, cob, csec, ccm, upd⟩ := env
  obtain ⟨p1, p2⟩ := plug
  cases cg with
  | error e => simp at hget
  | ok c =>
    injection hget with hc
    subst hc
    cases comp with
    | error e =>
      exfalso
      simp [handleProvisionClaim, provisionBody, runCleanup] at hob
    | ok bn =>
      by_cases hlen : bn.length = 0
      · exfalso
        simp [handleProvisionClaim, provisionBody, runCleanup, hlen] at hfail
      · by_cases hsp : shouldProvision c
        case neg =>
          exfalso
          simp [handleProvisionClaim, provisionBody, runCleanup, hlen, hsp] at hfail
        case pos =>
          cases p2 with
          | some e =>
            have hp1 : p1 = none := hidiom e rfl
            subst hp1
            exfalso
            simp [handleProvisionClaim, provisionBody, runCleanup, hlen, hsp,
              deferredCleanup, deleteResources] at hob
          | none =>
            cases cob with
            | error e =>
              exfalso
              simp [handleProvisionClaim, provisionBody, runCleanup, hlen, hsp,
                obPtrEqNewEmpty, deferredCleanup, deleteResources] at hob
            | ok ob2 =>
              cases csec with
              | error e =>
                simp only [handleProvisionClaim, provisionBody, runCleanup,
                  obPtrEqNewEmpty] at hfail hob
                simp [hlen, hsp] at hfail hob
                subst hfail
                subst hob
                simp [handleProvisionClaim, provisionBody, runCleanup,
                  deferredCleanup, deleteResources, pluginDeletes, hlen, hsp,
                  obPtrEqNewEmpty, hnx]
              | ok s =>
                cases ccm with
                | error e =>
                  simp only [handleProvisionClaim, provisionBody, runCleanup,
                    obPtrEqNewEmpty] at hfail hob
                  simp [hlen, hsp] at hfail hob
                  subst hfail
                  subst hob
                  simp [handleProvisionClaim, provisionBody, runCleanup,
                    deferredCleanup, deleteResources, pluginDeletes, hlen, hsp,
                    obPtrEqNewEmpty, hnx]
                | ok cm =>
                  cases upd with
                  | some e =>
                    simp only [handleProvisionClaim, provisionBody, runCleanup,
                      obPtrEqNewEmpty] at hfail hob
                    simp [hlen, hsp] at hfail hob
                    subst hfail
                    subst hob
                    simp [handleProvisionClaim, provisionBody, runCleanup,
                      deferredCleanup, deleteResources, pluginDeletes, hlen, hsp,
                      obPtrEqNewEmpty, hnx]
                  | none =>
                    exfalso
                    simp [handleProvisionClaim, provisionBody, runCleanup,
                      hlen, hsp, obPtrEqNewEmpty] at hfail

/-- Provisioning environment realizing Scenario C: dynamic pass, binding
persisted, then the credentials create fails with a store error. -/
def envC1 : ProvisionEnv :=
  { claimGet := .ok claimX
    compose := .ok "gen-bucket"
    plugin := (some { bucketName := "gen-bucket" }, none)
    claimRef := .ok keyX
    createOB := .ok obX
    createSecret := .error (goErrorf "secret create failed")
    createCM := .error (goErrorf "unused")
    updateClaim := none }

/-- Witness for C1 at Scenario C: plugin Delete runs once on the persisted
binding, the binding is deleted, and the pass returns the store error. -/
theorem claim1_witness :
    pluginDeletes (handleProvisionClaim keyX classDynX true envC1).trace = [obX.name]
    ∧ Event.deleteOB ∈ (handleProvisionClaim keyX classDynX true envC1).trace
    ∧ ((handleProvisionClaim keyX classDynX true envC1).finalSecret.isSome →
        Event.deleteSecret ∈ (handleProvisionClaim keyX classDynX true envC1).trace)
    ∧ ((handleProvisionClaim keyX classDynX true envC1).finalCM.isSome →
        Event.deleteConfigMap ∈ (handleProvisionClaim keyX classDynX true envC1).trace)
    ∧ (handleProvisionClaim keyX classDynX true envC1).ret =
        some (goErrorf "secret create failed") :=
  claim1_cleanup_after_failure keyX classDynX envC1 claimX
    (goErrorf "secret create failed") obX rfl
    (by intro e h; simp [envC1] at h) (by decide) (by decide) (by decide)

/-- The binding-delete stage always appends exactly the deleteOB event,
whatever the store answers (src lines 281-288). -/
lemma deleteClaimOB_trace (env : DeleteEnv) (ob : ObjectBucket)
    (tr : List Event) : (deleteClaimOB env ob tr).trace = tr ++ [Event.deleteOB] := by
  cases h : env.obDelete with
  | some e => by_cases hn : e.isNotFound <;> simp [deleteClaimOB, h, hn]
  | none => simp [deleteClaimOB, h]

/-- In a list of the shape pre ++ [p, b] whose prefix does not contain b,
every decomposition at an occurrence of b puts p into the left part. -/
lemma append_two_decomp {α : Type} (p b : α) (hne : p ≠ b) :
    ∀ (l1 pre l2 : List α), b ∉ pre → pre ++ [p, b] = l1 ++ b :: l2 → p ∈ l1 := by
  intro l1
  induction l1 with
  | nil =>
    intro pre l2 hpre h
    cases pre with
    | nil =>
      simp only [List.nil_append] at h
      injection h with h1 _
      exact absurd h1 hne
    | cons x pre2 =>
      simp only [List.cons_append, List.nil_append] at h
      injection h with h1 _
      exact absurd (h1 ▸ List.mem_cons_self x pre2) hpre
  | cons y l1 ih =>
    intro pre l2 hpre h
    cases pre with
    | nil =>
      simp only [List.nil_append, List.cons_append] at h
      injection h with h1 _
      exact h1 ▸ List.mem_cons_self y l1
    | cons x pre2 =>
      simp only [List.cons_append] at h
      injection h with h1 h2
      have hb2 : b ∉ pre2 := fun hb => hpre (List.mem_cons_of_mem x hb)
      exact List.mem_cons_of_mem y (ih pre2 l2 hb2 h2)

/-- When the connection-info and credentials stages pass through and the
binding and class lookups succeed, handleDeleteClaim reaches the plugin
stage with a prefix trace free of binding-delete events. -/
lemma handleDeleteClaim_to_plugin (key : ClaimRef) (env : DeleteEnv)
    (ob : ObjectBucket) (sc : StorageClass)
    (hcm : ∀ c, env.cmGet = .ok c → env.cmDelete = none)
    (hsec : ∀ s, env.secretGet = .ok s → env.secretDelete = none)
    (hob : env.obGet = .ok ob)
    (hclass : env.classGet = (some sc, none)) :
    ∃ tr0 : List Event,
      handleDeleteClaim key env = deleteClaimPlugin env ob sc (tr0 ++ [Event.getClass])
      ∧ Event.deleteOB ∉ tr0 ∧ Event.deleteOB ∉ (tr0 ++ [Event.getClass]) := by
  cases hcg : env.cmGet with
  | ok c =>
    have hcd := hcm c hcg
    cases hsg : env.secretGet with
    | ok s =>
      have hsd := hsec s hsg
      refine ⟨[.getConfigMap, .deleteConfigMap, .getSecret, .deleteSecret,
               .getOB (objectBucketNameFor key)], ?_, by simp, by simp⟩
      simp [handleDeleteClaim, deleteClaimSecretStage, deleteClaimFromOB,
        objectBucketForClaimKey, hcg, hcd, hsg, hsd, hob, hclass]
    | error e =>
      refine ⟨[.getConfigMap, .deleteConfigMap, .getSecret,
               .getOB (objectBucketNameFor key)], ?_, by simp, by simp⟩
      simp [handleDeleteClaim, deleteClaimSecretStage, deleteClaimFromOB,
        objectBucketForClaimKey, hcg, hcd, hsg, hob, hclass]
  | error e =>
    cases hsg : env.secretGet with
    | ok s =>
      have hsd := hsec s hsg
      refine ⟨[.getConfigMap, .getSecret, .deleteSecret,
               .getOB (objectBucketNameFor key)], ?_, by simp, by simp⟩
      simp [handleDeleteClaim, deleteClaimSecretStage, deleteClaimFromOB,
        objectBucketForClaimKey, hcg, hsg, hsd, hob, hclass]
    | error e2 =>
      refine ⟨[.getConfigMap, .getSecret, .getOB (objectBucketNameFor key)],
              ?_, by simp, by simp⟩
      simp [handleDeleteClaim, deleteClaimSecretStage, deleteClaimFromOB,
        objectBucketForClaimKey, hcg, hsg, hob, hclass]

/-- C2: in every deprovision pass that reaches the plugin stage, plugin
Delete (dynamic) or Revoke (static) is invoked, every binding-delete event
in the trace is preceded by that plugin call, and a plugin error terminates
the pass with that error (wrapped with its src-line context message) while
the binding record is not deleted (src lines 269-288). -/
theorem claim2_plugin_before_binding_delete
    (key : ClaimRef) (env : DeleteEnv) (ob : ObjectBucket) (sc : StorageClass)
    (hcm : ∀ c, env.cmGet = .ok c → env.cmDelete = none)
    (hsec : ∀ s, env.secretGet = .ok s → env.secretDelete = none)
    (hob : env.obGet = .ok ob)
    (hclass : env.classGet = (some sc, none)) :
    (scForNewBkt sc = true →
      Event.pluginDelete ob.name ∈ (handleDeleteClaim key env).trace)
    ∧ (scForNewBkt sc = false →
      Event.pluginRevoke ob.name ∈ (handleDeleteClaim key env).trace)
    ∧ (∀ e, scForNewBkt sc = true → env.pluginDelete = some e →
        (handleDeleteClaim key env).ret =
          some (goErrorfWrap "provisioner error deleting bucket" e)
        ∧ Event.deleteOB ∉ (handleDeleteClaim key env).trace)
    ∧ (∀ e, scForNewBkt sc = false → env.pluginRevoke = some e →
        (handleDeleteClaim key env).ret =
          some (goErrorfWrap "provisioner error revoking access to bucket" e)
        ∧ Event.deleteOB ∉ (handleDeleteClaim key env).trace)
    ∧ (∀ l1 l2, (handleDeleteClaim key env).trace = l1 ++ Event.deleteOB :: l2 →
        Event.pluginDelete ob.name ∈ l1 ∨ Event.pluginRevoke ob.name ∈ l1) := by
  obtain ⟨tr0, heq, hnin0, hnin⟩ :=
    handleDeleteClaim_to_plugin key env ob sc hcm hsec hob hclass
  rw [heq]
  refine ⟨?_, ?_, ?_, ?_, ?_⟩
  · intro hdyn
    cases hpd : env.pluginDelete with
    | some e => simp [deleteClaimPlugin, hdyn, hpd]
    | none => simp [deleteClaimPlugin, hdyn, hpd, deleteClaimOB_trace]
  · intro hstat
    cases hpr : env.pluginRevoke with
    | some e => simp [deleteClaimPlugin, hstat, hpr]
    | none => simp [deleteClaimPlugin, hstat, hpr, deleteClaimOB_trace]
  · intro e hdyn hpd
    exact ⟨by simp [deleteClaimPlugin, hdyn, hpd],
           by simp [deleteClaimPlugin, hdyn, hpd, hnin0]⟩
  · intro e hstat hpr
    exact ⟨by simp [deleteClaimPlugin, hstat, hpr],
           by simp [deleteClaimPlugin, hstat, hpr, hnin0]⟩
  · intro l1 l2 htr
    by_cases hdyn : scForNewBkt sc
    · cases hpd : env.pluginDelete with
      | some e =>
        exfalso
        simp only [deleteClaimPlugin, hdyn, hpd, if_true] at htr
        have hmem : Event.deleteOB ∈ l1 ++ Event.deleteOB :: l2 := by simp
        rw [← htr] at hmem
        simp [hnin0] at hmem
      | none =>
        left
        simp only [deleteClaimPlugin, hdyn, hpd, if_true] at htr
        rw [deleteClaimOB_trace] at htr
        have htr2 : (tr0 ++ [Event.getClass]) ++
            [Event.pluginDelete ob.name, Event.deleteOB] = l1 ++ Event.deleteOB :: l2 := by
          rw [← htr]
          simp [List.append_assoc]
        exact append_two_decomp (Event.pluginDelete ob.name) Event.deleteOB
          (by simp) l1 (tr0 ++ [Event.getClass]) l2 hnin htr2
    · cases hpr : env.pluginRevoke with
      | some e =>
        exfalso
        simp only [deleteClaimPlugin, hdyn, hpr, Bool.false_eq_true, if_false] at htr
        have hmem : Event.deleteOB ∈ l1 ++ Event.deleteOB :: l2 := by simp
        rw [← htr] at hmem
        simp [hnin0] at hmem
      | none =>
        right
        simp only [deleteClaimPlugin, hdyn, hpr, Bool.false_eq_true, if_false] at htr
        rw [deleteClaimOB_trace] at htr
        have htr2 : (tr0 ++ [Event.getClass]) ++
            [Event.pluginRevoke ob.name, Event.deleteOB] = l1 ++ Event.deleteOB :: l2 := by
          rw [← htr]
          simp [List.append_assoc]
        exact append_two_decomp (Event.pluginRevoke ob.name) Event.deleteOB
          (by simp) l1 (tr0 ++ [Event.getClass]) l2 hnin htr2

/-- Deprovisioning environment reaching a dynamic plugin Delete that
fails. -/
def envC2 : DeleteEnv :=
  { cmGet := .error (goErrorf "configmap not found")
    secretGet := .error (goErrorf "secret not found")
    obGet := .ok obX
    classGet := (some classDynX, none)
    pluginDelete := some (goErrorf "bucket delete failed") }

/-- Witness for C2: the plugin Delete is invoked, the pass terminates with
the plugin error and the binding record is not deleted. -/
theorem claim2_witness :
    Event.pluginDelete obX.name ∈ (handleDeleteClaim keyX envC2).trace
    ∧ (handleDeleteClaim keyX envC2).ret =
        some (goErrorfWrap "provisioner error deleting bucket"
          (goErrorf "bucket delete failed"))
    ∧ Event.deleteOB ∉ (handleDeleteClaim keyX envC2).trace :=
  have h := claim2_plugin_before_binding_delete keyX envC2 obX classDynX
    (by intro c hc; simp [envC2] at hc)
    (by intro s hs; simp [envC2] at hs) rfl rfl
  ⟨h.1 (by decide),
   (h.2.2.1 (goErrorf "bucket delete failed") (by decide) rfl).1,
   (h.2.2.1 (goErrorf "bucket delete failed") (by decide) rfl).2⟩

end LibBucket
